import Mathlib

/-!
Verification development for the climate-forecast engine of src/app.py.

The engine is shallowly embedded: Python floats become rationals (reals for the
transcendental relative-humidity formula), the pickled dataset becomes an
association list from timestamp keys to records, scipy's griddata interpolator
becomes an abstract function parameter constrained by the specification, and
datetime.strptime for the pattern YYYY-MM-DD HH:MM becomes an explicit
backtracking parser mirroring CPython's field regexes.
-/

namespace NassaApp

/-- Outcome of pronosticar_clima: either the error dictionary with its message,
or the dictionary mapping variable names to an optional numeric value. -/
inductive ForecastOutcome where
  | err (msg : String)
  | ok (campos : List (String × Option ℚ))
  deriving DecidableEq

/-- One historical record of the dataset: the optional key puntos holding the
sample coordinates, and the per-variable value arrays, as in the pickled dicts
read by pronosticar_clima. -/
structure Record where
  puntos : Option (List (ℚ × ℚ))
  vars : List (String × List ℚ)
  deriving DecidableEq

/-- The loaded dataset agente_climatico: a finite mapping from timestamp key
strings to records. -/
abbrev Store := List (String × Record)

/-- Modelled from the spec: scipy.interpolate.griddata with method cubic is
third-party code not under src/. Following section 4.2, an interpolator takes a
record's points, one variable's values and a query coordinate and yields an
optional value; none models the undefined (NaN) result that the code filters
with np.isnan. -/
abbrev Interp := List (ℚ × ℚ) → List ℚ → ℚ × ℚ → Option ℚ

/-- Modelled from the spec: section 4.2 requires the interpolator to be
undefined (no value, not an error) when fewer than 3 usable points are given. -/
def InterpEspec (interp : Interp) : Prop :=
  ∀ pts vals q, pts.length < 3 → interp pts vals q = none

/-- Value of a decimal digit character, none for any other character. -/
def readDigit (c : Char) : Option Nat :=
  if '0' ≤ c ∧ c ≤ '9' then some (c.toNat - '0'.toNat) else none

/-- Candidates for a one-or-two-digit numeric field, two-digit alternative
first, mirroring the alternation order of CPython's strptime regexes. -/
def fieldCands (ok2 : Nat → Nat → Bool) (ok1 : Nat → Bool) :
    List Char → List (Nat × List Char)
  | c1 :: c2 :: resto =>
      (match readDigit c1, readDigit c2 with
        | some d1, some d2 => if ok2 d1 d2 then [(10 * d1 + d2, resto)] else []
        | _, _ => []) ++
      (match readDigit c1 with
        | some d1 => if ok1 d1 then [(d1, c2 :: resto)] else []
        | none => [])
  | [c1] =>
      (match readDigit c1 with
        | some d1 => if ok1 d1 then [(d1, [])] else []
        | none => [])
  | [] => []

/-- Two-digit month pattern of strptime: 10 to 12 or 01 to 09. -/
def okMes2 (d1 d2 : Nat) : Bool := (d1 == 1 && d2 ≤ 2) || (d1 == 0 && 1 ≤ d2)

/-- One-digit month pattern of strptime: 1 to 9. -/
def okMes1 (d : Nat) : Bool := 1 ≤ d

/-- Two-digit day pattern of strptime: 30 to 31, 10 to 29, or 01 to 09. -/
def okDia2 (d1 d2 : Nat) : Bool :=
  (d1 == 3 && d2 ≤ 1) || d1 == 1 || d1 == 2 || (d1 == 0 && 1 ≤ d2)

/-- One-digit day pattern of strptime: 1 to 9. -/
def okDia1 (d : Nat) : Bool := 1 ≤ d

/-- Two-digit hour pattern of strptime: 20 to 23 or 00 to 19. -/
def okHora2 (d1 d2 : Nat) : Bool := (d1 == 2 && d2 ≤ 3) || d1 ≤ 1

/-- One-digit hour pattern of strptime: any digit. -/
def okHora1 (_ : Nat) : Bool := true

/-- Two-digit minute pattern of strptime: 00 to 59. -/
def okMin2 (d1 _ : Nat) : Bool := d1 ≤ 5

/-- One-digit minute pattern of strptime: any digit. -/
def okMin1 (_ : Nat) : Bool := true

/-- Drop a maximal run of whitespace characters. -/
def dropWs : List Char → List Char
  | c :: resto => if c.isWhitespace then dropWs resto else c :: resto
  | [] => []

/-- Consume at least one whitespace character, then any further whitespace,
as the whitespace in a strptime format does. -/
def skipWs1 : List Char → Option (List Char)
  | c :: resto => if c.isWhitespace then some (dropWs resto) else none
  | [] => none

/-- Leap-year rule used by the Gregorian calendar, as in datetime. -/
def esBisiesto (y : Nat) : Bool := y % 4 == 0 && (y % 100 != 0 || y % 400 == 0)

/-- Number of days of a month, as validated by the datetime constructor. -/
def diasMes (y m : Nat) : Nat :=
  if m == 2 then (if esBisiesto y then 29 else 28)
  else if m == 4 || m == 6 || m == 9 || m == 11 then 30
  else 31

/-- Calendar validity enforced by the datetime constructor after the regex
match: year at least MINYEAR, month and day inside their month's range. -/
def fechaValida (y m d : Nat) : Bool :=
  1 ≤ y && 1 ≤ m && m ≤ 12 && 1 ≤ d && d ≤ diasMes y m

/-- Parser for datetime.strptime with format %Y-%m-%d %H:%M over a character
list: a four-digit year, literal dashes, backtracking one-or-two-digit month,
day, hour and minute fields, whitespace between day and hour, a literal colon,
no trailing characters, and final calendar validation. -/
def parseFechaHoraAux : List Char → Option (Nat × Nat × Nat × Nat × Nat)
  | c1 :: c2 :: c3 :: c4 :: resto =>
    match readDigit c1, readDigit c2, readDigit c3, readDigit c4 with
    | some a, some b, some c, some d =>
      let y := 1000 * a + 100 * b + 10 * c + d
      match resto with
      | '-' :: r2 =>
        (fieldCands okMes2 okMes1 r2).findSome? fun pm =>
          match pm.2 with
          | '-' :: r4 =>
            (fieldCands okDia2 okDia1 r4).findSome? fun pd =>
              match skipWs1 pd.2 with
              | some r6 =>
                (fieldCands okHora2 okHora1 r6).findSome? fun ph =>
                  match ph.2 with
                  | ':' :: r8 =>
                    (fieldCands okMin2 okMin1 r8).findSome? fun pmin =>
                      if pmin.2.isEmpty && fechaValida y pm.1 pd.1 then
                        some (y, pm.1, pd.1, ph.1, pmin.1)
                      else none
                  | _ => none
              | none => none
          | _ => none
      | _ => none
    | _, _, _, _ => none
  | _ => none

/-- Parsing of the combined date-time string, as datetime.strptime with the
format %Y-%m-%d %H:%M does in pronosticar_clima. -/
def parseFechaHora (s : String) : Option (Nat × Nat × Nat × Nat × Nat) :=
  parseFechaHoraAux s.data

/-- Zero-padded two-digit rendering of a field, as strftime uses. -/
def pad2 (n : Nat) : String := if n < 10 then "0" ++ toString n else toString n

/-- The strftime pattern %m-%d %H:00:00 applied to the parsed query time:
month-day-hour with the minutes truncated to :00, called mes_dia_hora in
pronosticar_clima. -/
def mesDiaHora (m d h : Nat) : String :=
  pad2 m ++ "-" ++ pad2 d ++ " " ++ pad2 h ++ ":00:00"

/-- Python str.split on a single-character separator: splits at every
occurrence, keeping empty pieces, never returning an empty list. -/
def splitChar (sep : Char) : List Char → List (List Char)
  | [] => [[]]
  | c :: cs =>
    match splitChar sep cs with
    | [] => [[]]
    | parte :: resto =>
      if c = sep then [] :: parte :: resto else (c :: parte) :: resto

/-- The bare-hour normalization of pronosticar_clima: when splitting the hour
string on the colon yields a single piece, append ":00". -/
def normalizarHora (hora : String) : String :=
  if (splitChar ':' hora.data).length = 1 then hora ++ ":00" else hora

/-- The historical timestamp key fecha_historica_str, built by substituting a
year into the month-day-hour pattern. -/
def histKey (anio : Nat) (mdh : String) : String := toString anio ++ "-" ++ mdh

/-- One year's contribution to a variable's series: look the historical key up
in the store, require the puntos key and the variable to be present, and keep
the interpolated value when it is defined. -/
def interpolar_anio (ag : Store) (interp : Interp) (latitud longitud : ℚ)
    (mdh v : String) (anio : Nat) : Option (Nat × ℚ) :=
  match List.lookup (histKey anio mdh) ag with
  | none => none
  | some datos =>
    match datos.puntos, List.lookup v datos.vars with
    | some pts, some vals =>
      (interp pts vals (longitud, latitud)).map fun val => (anio, val)
    | _, _ => none

/-- The year series a variable accumulates in pronosticar_clima: the years
2015 through 2024 in order, keeping those with a record, the variable and a
defined interpolation, paired with the interpolated value. -/
def serie_historica (ag : Store) (interp : Interp) (latitud longitud : ℚ)
    (mdh v : String) : List (Nat × ℚ) :=
  (List.range' 2015 10).filterMap (interpolar_anio ag interp latitud longitud mdh v)

/-- Modelled from the spec: np.polyfit(anios, valores, 1) is third-party code
not under src/; section 4.3 specifies it as the ordinary least-squares line
value = slope * year + intercept. This is its closed form; it is proved below
to minimize the sum of squared residuals when the years are distinct. -/
def polyfit_lin (anios valores : List ℚ) : ℚ × ℚ :=
  let n : ℚ := anios.length
  let sx := anios.sum
  let sy := valores.sum
  let sxx := (anios.map fun x => x * x).sum
  let sxy := ((anios.zip valores).map fun p => p.1 * p.2).sum
  let d := n * sxx - sx * sx
  let pendiente := (n * sxy - sx * sy) / d
  let intercepto := (sy - pendiente * sx) / n
  (pendiente, intercepto)

/-- The trend-or-mean step of pronosticar_clima: none on an empty value list,
the arithmetic mean (np.mean) when fewer than 4 values were collected, and the
fitted line evaluated at the target year otherwise. -/
def tendencia (anios valores : List ℚ) (anio_futuro : ℚ) : Option ℚ :=
  if valores.length < 4 then
    if valores = [] then none else some (valores.sum / (valores.length : ℚ))
  else
    some ((polyfit_lin anios valores).1 * anio_futuro + (polyfit_lin anios valores).2)

/-- Sum of squared residuals of the line with slope a and intercept b over the
zipped year-value pairs: the quantity ordinary least squares minimizes. -/
def sse (anios valores : List ℚ) (a b : ℚ) : ℚ :=
  ((anios.zip valores).map fun p => (p.2 - (a * p.1 + b)) ^ 2).sum

/-- The value pronosticar_clima stores for one variable: the trend step applied
to the variable's own year series. -/
def resultado_variable (ag : Store) (interp : Interp) (latitud longitud : ℚ)
    (mdh : String) (anio_futuro : ℚ) (v : String) : Option ℚ :=
  let serie := serie_historica ag interp latitud longitud mdh v
  tendencia (serie.map fun p => (p.1 : ℚ)) (serie.map Prod.snd) anio_futuro

/-- The three variable names pronosticar_clima iterates over, in order. -/
def listaVariables : List String := ["temperatura", "humedad", "precipitacion"]

/-- The body of pronosticar_clima after the dataset check, receiving the
already-normalized hour string: parse the combined date-time string, derive the
month-day-hour pattern and target year, and assemble the per-variable results. -/
def pronosticarConFormato (ag : Store) (interp : Interp) (latitud longitud : ℚ)
    (fecha hora : String) : ForecastOutcome :=
  let fecha_hora_str := fecha ++ " " ++ hora
  match parseFechaHora fecha_hora_str with
  | none => .err ("Formato de fecha/hora inválido: " ++ fecha_hora_str)
  | some (anio, mes, dia, h, _) =>
    let mdh := mesDiaHora mes dia h
    .ok (listaVariables.map fun v =>
      (v, resultado_variable ag interp latitud longitud mdh (anio : ℚ) v))

/-- The forecast entry point pronosticar_clima: error when no dataset is
loaded, bare-hour normalization, then the parsed forecast body. -/
def pronosticar_clima (agente : Option Store) (interp : Interp)
    (latitud longitud : ℚ) (fecha hora : String) : ForecastOutcome :=
  match agente with
  | none => .err "Modelo de datos no disponible."
  | some ag => pronosticarConFormato ag interp latitud longitud fecha (normalizarHora hora)

/-- Python dict.get over a result dictionary holding optional numbers: none
for a missing key and for a key bound to None. -/
def dictGet (campos : List (String × Option ℚ)) (k : String) : Option ℚ :=
  (campos.lookup k).join

/-- Temperature banding of generar_descripcion_corta once the rain branch has
been passed. -/
def descripcionTemp (temp : Option ℚ) : String :=
  match temp with
  | none => "Desconocido"
  | some t =>
    if 24 < t then "Caluroso"
    else if 18 < t then "Cálido"
    else if 12 < t then "Templado"
    else "Frío"

/-- The short-description function generar_descripcion_corta: the rain label
when precipitation is present and above 1.0, otherwise the temperature bands. -/
def generar_descripcion_corta (resultados : List (String × Option ℚ)) : String :=
  let temp := dictGet resultados "temperatura"
  let precip := dictGet resultados "precipitacion"
  match precip with
  | some p => if 1 < p then "Lluvioso" else descripcionTemp temp
  | none => descripcionTemp temp

/-- Reading a field out of a forecast outcome, as resultado.get does in
daily_chart: the error dictionary has no variable keys, so every field reads
as None there. -/
def outcomeGet (r : ForecastOutcome) (k : String) : Option ℚ :=
  match r with
  | .err _ => none
  | .ok campos => dictGet campos k

/-- The reshaped response of the daily_chart route. -/
structure DailyChart where
  labels : List String
  temperatures : List (Option ℚ)
  humidities : List (Option ℚ)
  precipitations : List ℚ
  deriving DecidableEq

/-- The daily_chart adapter: 24 hour labels, one forecast call per hour, and
three parallel arrays with a missing precipitation mapped to 0. -/
def daily_chart (agente : Option Store) (interp : Interp) (latitud longitud : ℚ)
    (fecha : String) : DailyChart :=
  let horas := (List.range 24).map fun h => pad2 h ++ ":00"
  { labels := horas
    temperatures := horas.map fun hora =>
      outcomeGet (pronosticar_clima agente interp latitud longitud fecha hora) "temperatura"
    humidities := horas.map fun hora =>
      outcomeGet (pronosticar_clima agente interp latitud longitud fecha hora) "humedad"
    precipitations := horas.map fun hora =>
      (outcomeGet (pronosticar_clima agente interp latitud longitud fecha hora) "precipitacion").getD 0 }

/-- The relative-humidity formula calcular_humedad_relativa over the reals:
None when either input is absent, otherwise the Magnus-formula ratio clamped
to the closed interval from 0 to 100. -/
noncomputable def calcular_humedad_relativa (temp_c pto_rocio_c : Option ℝ) : Option ℝ :=
  match temp_c, pto_rocio_c with
  | some t, some td =>
    let b : ℝ := 17.625
    let c : ℝ := 243.04
    let gamma := b * td / (c + td) - b * t / (c + t)
    let rh := 100 * Real.exp gamma
    some (min 100 (max 0 rh))
  | _, _ => none

/-- Interpolator that is everywhere undefined, used to instantiate theorems. -/
def interpNada : Interp := fun _ _ _ => none

/-- Interpolator that always yields 7, used to instantiate theorems. -/
def interpSiete : Interp := fun _ _ _ => some 7

/-- Concrete record with three sample points, used to instantiate theorems. -/
def registroTest : Record :=
  { puntos := some [(0, 0), (1, 0), (0, 1)], vars := [("temperatura", [1, 2, 3])] }

/-- Concrete one-record store, used to instantiate theorems. -/
def storeTest : Store := [("2016-06-01 12:00:00", registroTest)]

/-! Structural helper lemmas. -/

lemma pronosticarConFormato_ok (ag : Store) (interp : Interp) (lat lon : ℚ)
    (fecha hora : String) (y m d hh mi : Nat)
    (hp : parseFechaHora (fecha ++ " " ++ hora) = some (y, m, d, hh, mi)) :
    pronosticarConFormato ag interp lat lon fecha hora =
      .ok (listaVariables.map fun v =>
        (v, resultado_variable ag interp lat lon (mesDiaHora m d hh) (y : ℚ) v)) := by
  simp [pronosticarConFormato, hp]

lemma map_fst_pares (f : String → Option ℚ) :
    (listaVariables.map fun v => (v, f v)).map Prod.fst = listaVariables := rfl

lemma pronosticar_some (ag : Store) (interp : Interp) (lat lon : ℚ)
    (fecha hora : String) :
    pronosticar_clima (some ag) interp lat lon fecha hora =
      pronosticarConFormato ag interp lat lon fecha (normalizarHora hora) := rfl

lemma splitChar_ne_nil (sep : Char) (l : List Char) : splitChar sep l ≠ [] := by
  induction l with
  | nil => simp [splitChar]
  | cons c cs ih =>
    simp only [splitChar]
    cases h : splitChar sep cs with
    | nil => simp
    | cons parte resto => by_cases hc : c = sep <;> simp [hc]

lemma two_le_splitChar_append (sep : Char) (l1 l2 : List Char) :
    2 ≤ (splitChar sep (l1 ++ sep :: l2)).length := by
  induction l1 with
  | nil =>
    simp only [List.nil_append, splitChar]
    cases h : splitChar sep l2 with
    | nil => exact absurd h (splitChar_ne_nil sep l2)
    | cons parte resto => simp
  | cons c l1 ih =>
    cases h : splitChar sep (l1 ++ sep :: l2) with
    | nil => exact absurd h (splitChar_ne_nil _ _)
    | cons parte resto =>
      have hlen : 2 ≤ (parte :: resto).length := h ▸ ih
      have hg : splitChar sep (c :: (l1 ++ sep :: l2)) =
          if c = sep then [] :: parte :: resto else (c :: parte) :: resto := by
        rw [splitChar, h]
      rw [List.cons_append, hg]
      by_cases hc : c = sep
      · rw [if_pos hc]
        simp only [List.length_cons]
        omega
      · rw [if_neg hc]
        simp only [List.length_cons] at hlen ⊢
        omega

lemma normalizarHora_sin_colon (hora : String)
    (h : (splitChar ':' hora.data).length = 1) :
    normalizarHora hora = hora ++ ":00" := by
  rw [normalizarHora, if_pos h]

lemma normalizarHora_con_colon (hora : String) :
    normalizarHora (hora ++ ":00") = hora ++ ":00" := by
  have hd : (hora ++ ":00").data = hora.data ++ ':' :: ['0', '0'] := by
    rw [String.data_append]
  have h2 := two_le_splitChar_append ':' hora.data ['0', '0']
  rw [normalizarHora, hd, if_neg (by omega)]

lemma interpolar_anio_eq_some (ag : Store) (interp : Interp) (lat lon : ℚ)
    (mdh v : String) (anio : Nat) (p : Nat × ℚ) :
    interpolar_anio ag interp lat lon mdh v anio = some p ↔
    p.1 = anio ∧ ∃ datos pts vals,
      List.lookup (histKey anio mdh) ag = some datos ∧
      datos.puntos = some pts ∧
      List.lookup v datos.vars = some vals ∧
      interp pts vals (lon, lat) = some p.2 := by
  cases hl : List.lookup (histKey anio mdh) ag with
  | none => simp [interpolar_anio, hl]
  | some datos =>
    cases hpts : datos.puntos with
    | none => simp [interpolar_anio, hl, hpts]
    | some pts =>
      cases hv : List.lookup v datos.vars with
      | none => simp [interpolar_anio, hl, hpts, hv]
      | some vals =>
        cases hi : interp pts vals (lon, lat) with
        | none => simp [interpolar_anio, hl, hpts, hv, hi]
        | some val =>
          simp only [interpolar_anio, hl, hpts, hv, hi, Option.map_some',
            Option.some.injEq, Prod.ext_iff]
          constructor
          · rintro ⟨h1, h2⟩
            exact ⟨h1.symm, datos, pts, vals, rfl, hpts, hv, by rw [hi, h2]⟩
          · rintro ⟨h1, datos1, pts1, vals1, rfl, hp1, hv1, hi1⟩
            rw [hpts] at hp1
            rw [hv] at hv1
            obtain rfl := Option.some.inj hp1
            obtain rfl := Option.some.inj hv1
            rw [hi] at hi1
            exact ⟨h1.symm, Option.some.inj hi1⟩

lemma serie_historica_mem (ag : Store) (interp : Interp) (lat lon : ℚ)
    (mdh v : String) (p : Nat × ℚ) :
    p ∈ serie_historica ag interp lat lon mdh v ↔
    (2015 ≤ p.1 ∧ p.1 < 2025 ∧ ∃ datos pts vals,
      List.lookup (histKey p.1 mdh) ag = some datos ∧
      datos.puntos = some pts ∧
      List.lookup v datos.vars = some vals ∧
      interp pts vals (lon, lat) = some p.2) := by
  unfold serie_historica
  rw [List.mem_filterMap]
  constructor
  · rintro ⟨a, ha, hfa⟩
    rw [interpolar_anio_eq_some] at hfa
    obtain ⟨h1, rest⟩ := hfa
    have hr := List.mem_range'_1.mp ha
    rw [← h1] at hr rest
    exact ⟨hr.1, by omega, rest⟩
  · rintro ⟨h1, h2, rest⟩
    exact ⟨p.1, List.mem_range'_1.mpr ⟨h1, by omega⟩,
      (interpolar_anio_eq_some ag interp lat lon mdh v p.1 p).mpr ⟨rfl, rest⟩⟩

lemma filterMap_fst_sublist {β : Type} (l : List Nat) (f : Nat → Option (Nat × β))
    (hf : ∀ a p, f a = some p → p.1 = a) :
    ((l.filterMap f).map Prod.fst).Sublist l := by
  induction l with
  | nil => simp
  | cons a l ih =>
    rw [List.filterMap_cons]
    cases hfa : f a with
    | none => exact List.Sublist.cons a ih
    | some p =>
      rw [List.map_cons, hf a p hfa]
      exact List.Sublist.cons₂ a ih

/-! Least-squares helper lemmas. -/

lemma sum_map_sq_nonneg {α : Type} (l : List α) (f : α → ℚ) :
    0 ≤ (l.map fun x => f x ^ 2).sum := by
  induction l with
  | nil => simp
  | cons x l ih =>
    simp only [List.map_cons, List.sum_cons]
    exact add_nonneg (sq_nonneg _) ih

lemma sum_map_sq_pos {α : Type} (l : List α) (f : α → ℚ) (x : α)
    (hx : x ∈ l) (hfx : f x ≠ 0) : 0 < (l.map fun z => f z ^ 2).sum := by
  induction l with
  | nil => cases hx
  | cons a l ih =>
    simp only [List.map_cons, List.sum_cons]
    rcases List.mem_cons.mp hx with h | h
    · subst h
      refine add_pos_of_pos_of_nonneg ?_ (sum_map_sq_nonneg l f)
      rw [sq]
      exact mul_self_pos.mpr hfx
    · exact add_pos_of_nonneg_of_pos (sq_nonneg _) (ih h)

lemma sum_sub_sq_expand (l : List ℚ) (c : ℚ) :
    (l.map fun x => (x - c) ^ 2).sum =
      (l.map fun x => x * x).sum - 2 * c * l.sum + (l.length : ℚ) * c ^ 2 := by
  induction l with
  | nil => simp
  | cons x l ih =>
    simp only [List.map_cons, List.sum_cons, ih, List.length_cons]
    push_cast
    ring

lemma zip_sum_resid (anios valores : List ℚ) (h : anios.length = valores.length)
    (s i : ℚ) :
    ((anios.zip valores).map fun p => p.2 - (s * p.1 + i)).sum =
      valores.sum - s * anios.sum - (anios.length : ℚ) * i := by
  induction anios generalizing valores with
  | nil =>
    cases valores with
    | nil => simp
    | cons y ys => simp at h
  | cons x xs ih =>
    cases valores with
    | nil => simp at h
    | cons y ys =>
      have h' : xs.length = ys.length := by simpa using h
      simp only [List.zip_cons_cons, List.map_cons, List.sum_cons, ih ys h',
        List.length_cons]
      push_cast
      ring

lemma zip_sum_x_resid (anios valores : List ℚ) (h : anios.length = valores.length)
    (s i : ℚ) :
    ((anios.zip valores).map fun p => p.1 * (p.2 - (s * p.1 + i))).sum =
      ((anios.zip valores).map fun p => p.1 * p.2).sum
        - s * (anios.map fun x => x * x).sum - i * anios.sum := by
  induction anios generalizing valores with
  | nil =>
    cases valores with
    | nil => simp
    | cons y ys => simp at h
  | cons x xs ih =>
    cases valores with
    | nil => simp at h
    | cons y ys =>
      have h' : xs.length = ys.length := by simpa using h
      simp only [List.zip_cons_cons, List.map_cons, List.sum_cons, ih ys h']
      ring

lemma sse_decomp (l : List (ℚ × ℚ)) (s i a b : ℚ) :
    (l.map fun p => (p.2 - (a * p.1 + b)) ^ 2).sum =
      (l.map fun p => (p.2 - (s * p.1 + i)) ^ 2).sum
      + (2 * (s - a)) * (l.map fun p => p.1 * (p.2 - (s * p.1 + i))).sum
      + (2 * (i - b)) * (l.map fun p => p.2 - (s * p.1 + i)).sum
      + (l.map fun p => ((s - a) * p.1 + (i - b)) ^ 2).sum := by
  induction l with
  | nil => simp
  | cons p l ih =>
    simp only [List.map_cons, List.sum_cons, ih]
    ring

lemma polyfit_normal_eqs (anios valores : List ℚ)
    (h : anios.length = valores.length) (hn : anios ≠ [])
    (hd : (anios.length : ℚ) * (anios.map fun x => x * x).sum
      - anios.sum * anios.sum ≠ 0) :
    ((anios.zip valores).map fun p =>
        p.2 - ((polyfit_lin anios valores).1 * p.1 + (polyfit_lin anios valores).2)).sum
      = 0 ∧
    ((anios.zip valores).map fun p =>
        p.1 * (p.2 - ((polyfit_lin anios valores).1 * p.1
          + (polyfit_lin anios valores).2))).sum = 0 := by
  have hn0 : anios.length ≠ 0 := by
    cases anios with
    | nil => exact absurd rfl hn
    | cons x xs => simp
  have hn' : (anios.length : ℚ) ≠ 0 := by exact_mod_cast hn0
  have hs : (polyfit_lin anios valores).1 =
      ((anios.length : ℚ) * ((anios.zip valores).map fun p => p.1 * p.2).sum
        - anios.sum * valores.sum)
      / ((anios.length : ℚ) * (anios.map fun x => x * x).sum
        - anios.sum * anios.sum) := rfl
  have hi : (polyfit_lin anios valores).2 =
      (valores.sum - (polyfit_lin anios valores).1 * anios.sum)
        / (anios.length : ℚ) := rfl
  rw [zip_sum_resid anios valores h, zip_sum_x_resid anios valores h]
  constructor
  · rw [hi]
    field_simp
  · rw [hi, hs]
    field_simp
    ring

lemma d_pos (anios : List ℚ) (h2 : 2 ≤ anios.length)
    (hdist : anios.Pairwise (· ≠ ·)) :
    0 < (anios.length : ℚ) * (anios.map fun x => x * x).sum
      - anios.sum * anios.sum := by
  cases anios with
  | nil => simp at h2
  | cons x1 t =>
    cases t with
    | nil => simp at h2
    | cons x2 resto =>
      set l : List ℚ := x1 :: x2 :: resto with hl
      have hn0 : (0 : ℚ) < (l.length : ℚ) := by
        have : 0 < l.length := by simp [hl]
        exact_mod_cast this
      have hn' : (l.length : ℚ) ≠ 0 := ne_of_gt hn0
      have h12 : x1 ≠ x2 := by
        have := (List.pairwise_cons.mp hdist).1 x2 (by simp)
        exact this
      set μ : ℚ := l.sum / (l.length : ℚ) with hμ
      have key : (l.length : ℚ) * ((l.map fun x => (x - μ) ^ 2).sum) =
          (l.length : ℚ) * (l.map fun x => x * x).sum - l.sum * l.sum := by
        rw [sum_sub_sq_expand l μ, hμ]
        field_simp
        ring
      have hne : x1 ≠ μ ∨ x2 ≠ μ := by
        by_contra hc
        push_neg at hc
        exact h12 (hc.1.trans hc.2.symm)
      have hpos : 0 < (l.map fun x => (x - μ) ^ 2).sum := by
        rcases hne with hx | hx
        · exact sum_map_sq_pos l (fun x => x - μ) x1 (by simp [hl])
            (sub_ne_zero.mpr hx)
        · exact sum_map_sq_pos l (fun x => x - μ) x2 (by simp [hl])
            (sub_ne_zero.mpr hx)
      calc (0 : ℚ) < (l.length : ℚ) * ((l.map fun x => (x - μ) ^ 2).sum) :=
            mul_pos hn0 hpos
        _ = _ := key

lemma polyfit_min (anios valores : List ℚ) (hlen : anios.length = valores.length)
    (h2 : 2 ≤ anios.length) (hdist : anios.Pairwise (· ≠ ·)) (a b : ℚ) :
    sse anios valores (polyfit_lin anios valores).1 (polyfit_lin anios valores).2 ≤
      sse anios valores a b := by
  have hd := ne_of_gt (d_pos anios h2 hdist)
  have hn : anios ≠ [] := by
    cases anios with
    | nil => simp at h2
    | cons x xs => simp
  obtain ⟨e1, e2⟩ := polyfit_normal_eqs anios valores hlen hn hd
  unfold sse
  rw [sse_decomp (anios.zip valores) (polyfit_lin anios valores).1
    (polyfit_lin anios valores).2 a b, e1, e2]
  simp only [mul_zero, add_zero]
  exact le_add_of_nonneg_right (sum_map_sq_nonneg _ _)

/-! Claim theorems. -/

/-- C3: calcular_humedad_relativa is None exactly when an input is absent,
otherwise it is the clamped Magnus formula; every defined result lies in the
closed interval from 0 to 100, and an equal temperature and dew point give
exactly 100. -/
theorem humedad_relativa_spec :
    (∀ x, calcular_humedad_relativa none x = none) ∧
    (∀ x, calcular_humedad_relativa x none = none) ∧
    (∀ t td : ℝ, calcular_humedad_relativa (some t) (some td) =
      some (min 100 (max 0
        (100 * Real.exp (17.625 * td / (243.04 + td) - 17.625 * t / (243.04 + t)))))) ∧
    (∀ t td r : ℝ, calcular_humedad_relativa (some t) (some td) = some r →
      0 ≤ r ∧ r ≤ 100) ∧
    (∀ t : ℝ, calcular_humedad_relativa (some t) (some t) = some 100) := by
  refine ⟨fun x => by cases x <;> rfl, fun x => by cases x <;> rfl,
    fun t td => rfl, ?_, ?_⟩
  · intro t td r h
    have e : some (min 100 (max 0
        (100 * Real.exp (17.625 * td / (243.04 + td) - 17.625 * t / (243.04 + t)))))
        = some r := h
    rw [← Option.some.inj e]
    exact ⟨le_min (by norm_num) (le_max_left _ _), min_le_left _ _⟩
  · intro t
    simp [calcular_humedad_relativa, sub_self, Real.exp_zero]

/-- Witness for C3 at a concrete pair of equal temperatures. -/
theorem humedad_relativa_spec_testigo :
    calcular_humedad_relativa (some (5 : ℝ)) (some (5 : ℝ)) = some 100 :=
  humedad_relativa_spec.2.2.2.2 5

/-- C6: generar_descripcion_corta returns the rain label when precipitation is
present and above 1, before and independently of temperature; otherwise the
unknown label when temperature is absent; otherwise the temperature bands. -/
theorem descripcion_corta_spec (resultados : List (String × Option ℚ)) :
    (∀ p, dictGet resultados "precipitacion" = some p → 1 < p →
       generar_descripcion_corta resultados = "Lluvioso") ∧
    ((∀ p, dictGet resultados "precipitacion" = some p → p ≤ 1) →
       (dictGet resultados "temperatura" = none →
          generar_descripcion_corta resultados = "Desconocido") ∧
       (∀ t, dictGet resultados "temperatura" = some t →
          generar_descripcion_corta resultados =
            if 24 < t then "Caluroso"
            else if 18 < t then "Cálido"
            else if 12 < t then "Templado"
            else "Frío")) := by
  constructor
  · intro p hp h1
    simp [generar_descripcion_corta, hp, h1]
  · intro hle
    constructor
    · intro ht
      cases hp : dictGet resultados "precipitacion" with
      | none => simp [generar_descripcion_corta, hp, ht, descripcionTemp]
      | some p =>
        have hn := not_lt.mpr (hle p hp)
        simp [generar_descripcion_corta, hp, ht, descripcionTemp, hn]
    · intro t ht
      cases hp : dictGet resultados "precipitacion" with
      | none => simp [generar_descripcion_corta, hp, ht, descripcionTemp]
      | some p =>
        have hn := not_lt.mpr (hle p hp)
        simp [generar_descripcion_corta, hp, ht, descripcionTemp, hn]

/-- Witness for C6: rain dominates a warm temperature at a concrete input. -/
theorem descripcion_corta_spec_testigo :
    generar_descripcion_corta [("temperatura", some 20), ("precipitacion", some 2)]
      = "Lluvioso" :=
  (descripcion_corta_spec
    [("temperatura", some 20), ("precipitacion", some 2)]).1 2 (by decide) (by decide)

/-- C9: every non-error result of pronosticar_clima binds exactly the three
variable names, in order, each to an optional numeric value. -/
theorem resultado_claves_exactas (agente : Option Store) (interp : Interp)
    (lat lon : ℚ) (fecha hora : String) (campos : List (String × Option ℚ))
    (h : pronosticar_clima agente interp lat lon fecha hora = .ok campos) :
    campos.map Prod.fst = listaVariables := by
  cases agente with
  | none => exact absurd h (by simp [pronosticar_clima])
  | some ag =>
    rw [pronosticar_some] at h
    cases hp : parseFechaHora (fecha ++ " " ++ normalizarHora hora) with
    | none => simp [pronosticarConFormato, hp] at h
    | some q =>
      obtain ⟨y, m, d, hh, mi⟩ := q
      rw [pronosticarConFormato_ok ag interp lat lon fecha (normalizarHora hora)
        y m d hh mi hp] at h
      obtain rfl : (listaVariables.map fun v =>
          (v, resultado_variable ag interp lat lon (mesDiaHora m d hh) (y : ℚ) v))
          = campos := by
        cases h
        rfl
      exact map_fst_pares _

/-- Witness for C9 on an empty store and a valid date. -/
theorem resultado_claves_exactas_testigo :
    ([("temperatura", (none : Option ℚ)), ("humedad", none),
      ("precipitacion", none)]).map Prod.fst = listaVariables :=
  resultado_claves_exactas (some []) interpNada 0 0 "2020-06-01" "12:00" _ (by decide)

/-- C4: pronosticar_clima returns the error object exactly when the date-time
string fails to parse after bare-hour normalization or no dataset is loaded;
in every other case it returns the mapping over the three variable names. -/
theorem pronosticar_error_iff (agente : Option Store) (interp : Interp)
    (lat lon : ℚ) (fecha hora : String) :
    ((∃ msg, pronosticar_clima agente interp lat lon fecha hora = .err msg) ↔
      agente = none ∨ parseFechaHora (fecha ++ " " ++ normalizarHora hora) = none) ∧
    (∀ ag, agente = some ag →
      ∀ q, parseFechaHora (fecha ++ " " ++ normalizarHora hora) = some q →
      ∃ campos, pronosticar_clima agente interp lat lon fecha hora = .ok campos ∧
        campos.map Prod.fst = listaVariables) := by
  cases agente with
  | none =>
    refine ⟨⟨fun _ => Or.inl rfl, fun _ => ⟨"Modelo de datos no disponible.", rfl⟩⟩, ?_⟩
    intro ag hag
    exact absurd hag (by simp)
  | some ag =>
    cases hp : parseFechaHora (fecha ++ " " ++ normalizarHora hora) with
    | none =>
      refine ⟨⟨fun _ => Or.inr rfl, fun _ => ?_⟩, ?_⟩
      · exact ⟨"Formato de fecha/hora inválido: " ++ (fecha ++ " " ++ normalizarHora hora),
          by rw [pronosticar_some]; simp [pronosticarConFormato, hp]⟩
      · intro ag' hag' q hq
        cases hq
    | some q =>
      obtain ⟨y, m, d, hh, mi⟩ := q
      have hok := pronosticarConFormato_ok ag interp lat lon fecha
        (normalizarHora hora) y m d hh mi hp
      constructor
      · constructor
        · rintro ⟨msg, hmsg⟩
          rw [pronosticar_some, hok] at hmsg
          cases hmsg
        · rintro (h | h)
          · exact absurd h (by simp)
          · cases h
      · intro ag' hag' q' hq'
        obtain rfl : ag = ag' := by
          cases hag'
          rfl
        exact ⟨_, by rw [pronosticar_some, hok], map_fst_pares _⟩

/-- Witness for C4: the empty store with a valid query yields a non-error
mapping with exactly the three keys. -/
theorem pronosticar_error_iff_testigo :
    ∃ campos, pronosticar_clima (some []) interpNada 0 0 "2020-06-01" "12:00"
      = .ok campos ∧ campos.map Prod.fst = listaVariables :=
  (pronosticar_error_iff (some []) interpNada 0 0 "2020-06-01" "12:00").2
    [] rfl (2020, 6, 1, 12, 0) (by decide)

/-- C7: a bare-hour time string (no colon anywhere, so splitting on the colon
yields one piece) and its ":00" completion normalize to the same string, parse
to the same timestamp, and produce the same forecast. -/
theorem normalizacion_hora_equiv (agente : Option Store) (interp : Interp)
    (lat lon : ℚ) (fecha : String) (hora : String)
    (h1 : (splitChar ':' hora.data).length = 1) :
    normalizarHora hora = normalizarHora (hora ++ ":00") ∧
    parseFechaHora (fecha ++ " " ++ normalizarHora hora) =
      parseFechaHora (fecha ++ " " ++ normalizarHora (hora ++ ":00")) ∧
    pronosticar_clima agente interp lat lon fecha hora =
      pronosticar_clima agente interp lat lon fecha (hora ++ ":00") := by
  have he : normalizarHora hora = normalizarHora (hora ++ ":00") := by
    rw [normalizarHora_sin_colon hora h1, normalizarHora_con_colon]
  refine ⟨he, by rw [he], ?_⟩
  cases agente with
  | none => rfl
  | some ag => rw [pronosticar_some, pronosticar_some, he]

/-- Witness for C7 at the hour "14". -/
theorem normalizacion_hora_equiv_testigo :
    pronosticar_clima (some []) interpNada 0 0 "2020-06-01" "14" =
      pronosticar_clima (some []) interpNada 0 0 "2020-06-01" "14:00" :=
  (normalizacion_hora_equiv (some []) interpNada 0 0 "2020-06-01" "14" (by decide)).2.2

/-- C8: membership in a variable's year series holds exactly for years 2015
through 2024 whose record exists, holds the points and the variable, and
interpolates to the value; and the years of the series are strictly
increasing, hence duplicate-free. -/
theorem serie_historica_spec (ag : Store) (interp : Interp) (lat lon : ℚ)
    (mdh v : String) :
    (∀ p : Nat × ℚ, p ∈ serie_historica ag interp lat lon mdh v ↔
      (2015 ≤ p.1 ∧ p.1 ≤ 2024 ∧ ∃ datos pts vals,
        List.lookup (histKey p.1 mdh) ag = some datos ∧
        datos.puntos = some pts ∧
        List.lookup v datos.vars = some vals ∧
        interp pts vals (lon, lat) = some p.2)) ∧
    List.Pairwise (· < ·) ((serie_historica ag interp lat lon mdh v).map Prod.fst) := by
  constructor
  · intro p
    rw [serie_historica_mem]
    constructor
    · rintro ⟨h1, h2, h3⟩
      exact ⟨h1, by omega, h3⟩
    · rintro ⟨h1, h2, h3⟩
      exact ⟨h1, by omega, h3⟩
  · refine List.Pairwise.sublist ?_ (List.pairwise_lt_range' 2015 10)
    exact filterMap_fst_sublist _ _ fun a p h =>
      ((interpolar_anio_eq_some ag interp lat lon mdh v a p).mp h).1

/-- Witness for C8 on a concrete one-record store. -/
theorem serie_historica_spec_testigo :
    ((2016, (7 : ℚ)) ∈
      serie_historica storeTest interpSiete 0 0 "06-01 12:00:00" "temperatura") ∧
    List.Pairwise (· < ·)
      ((serie_historica storeTest interpSiete 0 0 "06-01 12:00:00"
        "temperatura").map Prod.fst) :=
  ⟨((serie_historica_spec storeTest interpSiete 0 0 "06-01 12:00:00"
      "temperatura").1 (2016, 7)).mpr
    ⟨by decide, by decide, registroTest, [(0, 0), (1, 0), (0, 1)], [1, 2, 3],
      by decide, rfl, by decide, rfl⟩,
   (serie_historica_spec storeTest interpSiete 0 0 "06-01 12:00:00" "temperatura").2⟩

/-- C5: on a parsed query the forecast is the per-variable map, each variable's
binding computed from its own series alone; an empty series yields an absent
field; and a year whose interpolation is undefined is excluded from the series
without aborting the forecast. -/
theorem pronosticar_aislamiento (ag : Store) (interp : Interp) (lat lon : ℚ)
    (fecha hora : String) (y m d hh mi : Nat)
    (hp : parseFechaHora (fecha ++ " " ++ normalizarHora hora) = some (y, m, d, hh, mi)) :
    pronosticar_clima (some ag) interp lat lon fecha hora =
      .ok (listaVariables.map fun v =>
        (v, resultado_variable ag interp lat lon (mesDiaHora m d hh) (y : ℚ) v)) ∧
    (∀ v, serie_historica ag interp lat lon (mesDiaHora m d hh) v = [] →
       resultado_variable ag interp lat lon (mesDiaHora m d hh) (y : ℚ) v = none) ∧
    (∀ v anio, interpolar_anio ag interp lat lon (mesDiaHora m d hh) v anio = none →
       anio ∉ (serie_historica ag interp lat lon (mesDiaHora m d hh) v).map Prod.fst) := by
  refine ⟨by rw [pronosticar_some,
    pronosticarConFormato_ok ag interp lat lon fecha (normalizarHora hora) y m d hh mi hp],
    ?_, ?_⟩
  · intro v hv
    simp [resultado_variable, hv, tendencia]
  · intro v anio hnone hmem
    rw [List.mem_map] at hmem
    obtain ⟨p, hpmem, hfst⟩ := hmem
    rw [serie_historica, List.mem_filterMap] at hpmem
    obtain ⟨a, _, hfa⟩ := hpmem
    have hpa : p.1 = a :=
      ((interpolar_anio_eq_some ag interp lat lon (mesDiaHora m d hh) v a p).mp hfa).1
    have ha : a = anio := by rw [← hpa, hfst]
    rw [ha, hnone] at hfa
    cases hfa

/-- Witness for C5 on the empty store at a valid query. -/
theorem pronosticar_aislamiento_testigo :
    pronosticar_clima (some []) interpNada 0 0 "2020-06-01" "12:00" =
      .ok (listaVariables.map fun v =>
        (v, resultado_variable [] interpNada 0 0 (mesDiaHora 6 1 12) (2020 : ℚ) v)) :=
  (pronosticar_aislamiento [] interpNada 0 0 "2020-06-01" "12:00"
    2020 6 1 12 0 (by decide)).1

/-- C1: under a specification-conforming interpolator, pronosticar_clima can
only return the dataset-unavailable error or the format error, never any other
failure; and a record with fewer than 3 points contributes no series entry,
every entry coming from a record with at least 3 points. -/
theorem pronosticar_sin_excepciones (agente : Option Store) (interp : Interp)
    (lat lon : ℚ) (fecha hora : String) (hI : InterpEspec interp) :
    (∀ msg, pronosticar_clima agente interp lat lon fecha hora = .err msg →
       msg = "Modelo de datos no disponible." ∨
       msg = "Formato de fecha/hora inválido: " ++ (fecha ++ " " ++ normalizarHora hora)) ∧
    (∀ (ag : Store) (mdh v : String) (p : Nat × ℚ),
       p ∈ serie_historica ag interp lat lon mdh v →
       ∃ datos pts vals,
         List.lookup (histKey p.1 mdh) ag = some datos ∧
         datos.puntos = some pts ∧ 3 ≤ pts.length ∧
         List.lookup v datos.vars = some vals ∧
         interp pts vals (lon, lat) = some p.2) := by
  constructor
  · intro msg h
    cases agente with
    | none =>
      left
      injection h with e
      exact e.symm
    | some ag =>
      rw [pronosticar_some] at h
      cases hp : parseFechaHora (fecha ++ " " ++ normalizarHora hora) with
      | none =>
        right
        rw [pronosticarConFormato] at h
        rw [hp] at h
        injection h with e
        exact e.symm
      | some q =>
        obtain ⟨y, m, dd, hh, mi⟩ := q
        rw [pronosticarConFormato_ok ag interp lat lon fecha (normalizarHora hora)
          y m dd hh mi hp] at h
        cases h
  · intro ag mdh v p hpmem
    rw [serie_historica_mem] at hpmem
    obtain ⟨h1, h2, datos, pts, vals, hl, hpts, hv, hi⟩ := hpmem
    refine ⟨datos, pts, vals, hl, hpts, ?_, hv, hi⟩
    by_contra hlt
    push_neg at hlt
    rw [hI pts vals (lon, lat) hlt] at hi
    cases hi

/-- Witness for C1: with no dataset the error is the dataset message. -/
theorem pronosticar_sin_excepciones_testigo :
    "Modelo de datos no disponible." = "Modelo de datos no disponible." ∨
    "Modelo de datos no disponible." =
      "Formato de fecha/hora inválido: " ++ ("2020-06-01" ++ " " ++ normalizarHora "12:00") :=
  (pronosticar_sin_excepciones none interpNada 0 0 "2020-06-01" "12:00"
    (fun _ _ _ _ => rfl)).1 "Modelo de datos no disponible." rfl

/-- C10: daily_chart always produces the 24 hour-ordered labels and three
arrays of 24 entries, never an error object; an hour whose forecast errs
contributes absent temperature and humidity and a zero precipitation, exactly
as a data-less success does. -/
theorem daily_chart_spec (agente : Option Store) (interp : Interp)
    (lat lon : ℚ) (fecha : String) :
    (daily_chart agente interp lat lon fecha).labels =
      ["00:00", "01:00", "02:00", "03:00", "04:00", "05:00", "06:00", "07:00",
       "08:00", "09:00", "10:00", "11:00", "12:00", "13:00", "14:00", "15:00",
       "16:00", "17:00", "18:00", "19:00", "20:00", "21:00", "22:00", "23:00"] ∧
    (daily_chart agente interp lat lon fecha).temperatures.length = 24 ∧
    (daily_chart agente interp lat lon fecha).humidities.length = 24 ∧
    (daily_chart agente interp lat lon fecha).precipitations.length = 24 ∧
    (daily_chart agente interp lat lon fecha).temperatures =
      (daily_chart agente interp lat lon fecha).labels.map (fun hora =>
        outcomeGet (pronosticar_clima agente interp lat lon fecha hora) "temperatura") ∧
    (daily_chart agente interp lat lon fecha).humidities =
      (daily_chart agente interp lat lon fecha).labels.map (fun hora =>
        outcomeGet (pronosticar_clima agente interp lat lon fecha hora) "humedad") ∧
    (daily_chart agente interp lat lon fecha).precipitations =
      (daily_chart agente interp lat lon fecha).labels.map (fun hora =>
        (outcomeGet (pronosticar_clima agente interp lat lon fecha hora)
          "precipitacion").getD 0) ∧
    (∀ hora msg, pronosticar_clima agente interp lat lon fecha hora = .err msg →
       outcomeGet (pronosticar_clima agente interp lat lon fecha hora) "temperatura"
         = none ∧
       outcomeGet (pronosticar_clima agente interp lat lon fecha hora) "humedad"
         = none ∧
       (outcomeGet (pronosticar_clima agente interp lat lon fecha hora)
         "precipitacion").getD 0 = 0) := by
  refine ⟨rfl, rfl, rfl, rfl, rfl, rfl, rfl, ?_⟩
  intro hora msg h
  rw [h]
  exact ⟨rfl, rfl, rfl⟩

/-- Witness for C10 with no dataset loaded: full shape and null-mapped hour. -/
theorem daily_chart_spec_testigo :
    (daily_chart none interpNada 0 0 "2020-06-01").labels.length = 24 ∧
    outcomeGet (pronosticar_clima none interpNada 0 0 "2020-06-01" "00:00")
      "temperatura" = none ∧
    (outcomeGet (pronosticar_clima none interpNada 0 0 "2020-06-01" "00:00")
      "precipitacion").getD 0 = 0 := by
  have h := daily_chart_spec none interpNada 0 0 "2020-06-01"
  have he := h.2.2.2.2.2.2.2 "00:00" "Modelo de datos no disponible." rfl
  exact ⟨by rw [h.1]; rfl, he.1, he.2.2⟩

/-- C2: the trend step returns none on an empty series, the mean of the values
independently of the target year on a nonempty series shorter than 4, and the
least-squares line evaluated at the target year on 4 or more points, where the
fitted pair minimizes the sum of squared residuals over all lines. -/
theorem tendencia_spec (anios valores : List ℚ) (anio_futuro : ℚ)
    (hlen : anios.length = valores.length) :
    (valores = [] → tendencia anios valores anio_futuro = none) ∧
    (valores ≠ [] → valores.length < 4 →
       tendencia anios valores anio_futuro = some (valores.sum / (valores.length : ℚ)) ∧
       (∀ t1 t2 : ℚ, tendencia anios valores t1 = tendencia anios valores t2)) ∧
    (4 ≤ valores.length → anios.Pairwise (· ≠ ·) →
       tendencia anios valores anio_futuro =
         some ((polyfit_lin anios valores).1 * anio_futuro
           + (polyfit_lin anios valores).2) ∧
       (∀ a b : ℚ, sse anios valores (polyfit_lin anios valores).1
           (polyfit_lin anios valores).2 ≤ sse anios valores a b)) := by
  refine ⟨?_, ?_, ?_⟩
  · intro he
    rw [he]
    simp [tendencia]
  · intro hne h4
    refine ⟨by rw [tendencia, if_pos h4, if_neg hne], ?_⟩
    intro t1 t2
    rw [tendencia, tendencia, if_pos h4, if_pos h4]
  · intro h4 hdist
    have h4' : ¬ valores.length < 4 := by omega
    refine ⟨by rw [tendencia, if_neg h4'], ?_⟩
    intro a b
    have h2 : 2 ≤ anios.length := by omega
    exact polyfit_min anios valores hlen h2 hdist a b

/-- Witness for C2 on the perfectly linear five-point series of the spec. -/
theorem tendencia_spec_testigo :
    tendencia [2015, 2016, 2017, 2018, 2019] [10, 12, 14, 16, 18] 2020 = some 20 := by
  have h := (tendencia_spec [2015, 2016, 2017, 2018, 2019] [10, 12, 14, 16, 18]
    2020 (by decide)).2.2 (by decide) (by decide)
  rw [h.1]
  norm_num [polyfit_lin, List.zip_cons_cons]

end NassaApp
